import Mathlib

/-!
Shallow embedding of the two-layer I2C HSM driver template
(src/i2c_templates/device_level.c and src/i2c_templates/api_level.c).

The active objects are modelled as explicit state records plus a
hierarchical event dispatcher that mirrors the QP QHsm semantics used by
the code: each event bubbles from the current leaf state up the parent
chain until a handler consumes it; a handler may return Handled or a
Transition, and a transition runs the exit actions from the current leaf
up to the transition source, then exits to the least common ancestor and
enters down to the target state.  Side effects (posted events, published
events, self-posted local signals) are collected as an output list.
Debug logging and QP subscription bookkeeping are not modelled.
-/

namespace I2CTemplates

/-- Bus readiness values published by the I2C controller AO. -/
inductive i2c_bus_status_t
  | NONE_READY
  | INTERNAL_ONLY_READY
  | EXTERNAL_ONLY_READY
  | BOTH_READY
deriving DecidableEq, Repr

/-- I2C operation selector stored in the in-flight transaction context.
The template only ever stores read or write; a third value keeps the
write-verify fallback branch of device_level_i2c_comm_req live. -/
inductive i2c_ops_t
  | I2C_READ
  | I2C_WRITE
  | I2C_WRITE_VERIFY
deriving DecidableEq, Repr

/-- Register addressing mode for an I2C transaction. -/
inductive i2c_reg_addr_mode_t
  | I2C_USE_REG_ADDR
  | I2C_NO_REG_ADDR
deriving DecidableEq, Repr

/-- Bus identifier for an I2C request. -/
inductive i2c_bus_id_t
  | INTERNAL
  | EXTERNAL
deriving DecidableEq, Repr

/-- Severity carried by a published generic error event. -/
inductive whoop_error_severity_t
  | E_S_WHOOP_WARNING
  | E_S_WHOOP_ERROR
deriving DecidableEq, Repr

/-- HAL level error codes.  The concrete numeric values live in headers
outside this repository; they are modelled as an abstract enumeration
with a constructor for arbitrary HAL codes. -/
inductive hal_error_t
  | E_NO_ERROR
  | E_TIME_OUT
  | hal_code (c : Int)
deriving DecidableEq, Repr

/-- Driver level error codes used for last_error records and published
generic errors.  A HAL code can also be forwarded directly, which the
hal constructor captures. -/
inductive error_code_t
  | E_WHOOP_NO_ERROR
  | E_WHOOP_DEVICE_LEVEL_BUSY
  | E_WHOOP_DEVICE_LEVEL_I2C_TIMEOUT
  | E_WHOOP_DEVICE_LEVEL_MISMATCH_RESP_ID
  | E_WHOOP_DEVICE_LEVEL_I2C_ERROR
  | E_WHOOP_API_LEVEL_DEVICE_LEVEL_UNAVAILABLE
  | E_WHOOP_API_LEVEL_TIMEOUT
  | E_WHOOP_API_LEVEL_BUSY_TIMEOUT
  | E_WHOOP_API_LEVEL_QUEUE_FULL
  | hal (h : hal_error_t)
deriving DecidableEq, Repr

/-- Buffer descriptor: register address, data pointer (modelled as a
numeric handle, 0 meaning NULL) and length. -/
structure device_level_buffer_t where
  address : Nat
  p_data : Nat
  length : Nat
deriving DecidableEq, Repr

/-- One I2C transaction as filled in by device_level_i2c_comm_req. -/
structure i2c_transaction_data_t where
  reg_addr_md : i2c_reg_addr_mode_t
  operation : i2c_ops_t
  nak_expected : Bool
  rec_data : Nat
  rec_data_len : Nat
  send_data : Nat
  send_data_len : Nat
  reg_addr : Nat
deriving DecidableEq, Repr

/-- Status enumeration of the device AO. -/
inductive device_level_status_t
  | DEVICE_LEVEL_UNKNOWN
  | DEVICE_LEVEL_DISABLED
  | DEVICE_LEVEL_ENABLED
  | DEVICE_LEVEL_FATAL_ERROR
deriving DecidableEq, Repr

/-- Request kind echoed in a device level response event. -/
inductive device_level_req_type_t
  | DEVICE_LEVEL_READ
  | DEVICE_LEVEL_WRITE
deriving DecidableEq, Repr

/-- Which of the three status report signals gets published by
device_level_publish_status and api_level_publish_status. -/
inductive status_report_t
  | ready_report
  | disable_report
  | error_report
deriving DecidableEq, Repr

/-- Replyable request header plus buffer payload, as carried by the
device level read and write request events. -/
structure replyable_request_t where
  request_id : Nat
  requestor : Nat
  buffer : device_level_buffer_t
deriving DecidableEq, Repr

/-- Signals delivered to the device AO, including the local signals it
self-posts.  Payloads carry only the fields the handlers inspect. -/
inductive device_signal
  | DEVICE_LEVEL_ENABLE_SIG
  | DEVICE_LEVEL_DISABLE_SIG
  | DEVICE_LEVEL_REQ_STAT_SIG
  | DEVICE_LEVEL_WRITE_SIG (req : replyable_request_t)
  | DEVICE_LEVEL_READ_SIG (req : replyable_request_t)
  | I2C_BUS_STATUS_SIG (bus_status : i2c_bus_status_t)
  | I2C_COMM_COMPLETE_SIG (response_id : Nat)
  | I2C_COMM_ERROR_SIG (response_id : Nat) (ecode : hal_error_t)
  | LOCAL_DEVICE_LEVEL_TIMEOUT_SIG
  | LOCAL_DEVICE_LEVEL_BUSY_TIMEOUT_SIG
  | LOCAL_DEVICE_LEVEL_ACTION_ENTER_IDLE_SIG
  | LOCAL_DEVICE_LEVEL_RETRY_SIG
  | LOCAL_DEVICE_LEVEL_I2C_TRANSACTION_START_RW_SIG
  | unknown_sig (n : Nat)
deriving DecidableEq, Repr

/-- Observable effects emitted by the device AO handlers. -/
inductive device_output
  | self_post (sig : device_signal)
  | post_i2c_request (request_id : Nat) (bus_id : i2c_bus_id_t)
      (address : Nat) (transaction : i2c_transaction_data_t)
  | post_replyable_response (dest : Nat) (request_id : Nat)
      (req_type : device_level_req_type_t) (buffer : device_level_buffer_t)
  | publish_generic_error (code : error_code_t) (severity : whoop_error_severity_t)
  | publish_status_report (r : status_report_t)
deriving DecidableEq, Repr

/-- States of the device HSM, superstates included.  The leaf field of the
state record only ever holds disabled, starting, idle, read, write or
error in a run; the superstates appear in ancestor chains. -/
inductive DHState
  | backstop
  | disabled
  | starting
  | enabled
  | idle
  | busy
  | read
  | write
  | error
deriving DecidableEq, Repr

/-- The device AO state record: the static ao_device_level instance of
device_level_t together with the module static retry counter and the
armed flags of the two timers, plus the current HSM leaf state. -/
structure device_level_t where
  leaf : DHState
  debug_level : Nat
  status : device_level_status_t
  i2c_transaction_id : Nat
  i2c_operation : i2c_ops_t
  device_level_req_id : Nat
  requestor : Nat
  read_data : device_level_buffer_t
  write_data : device_level_buffer_t
  last_error : error_code_t
  last_hal_error : hal_error_t
  time_event_armed : Bool
  busy_timer_armed : Bool
  retry_counter : Nat
deriving DecidableEq, Repr

/-- Compile-time retry bound DEVICE_LEVEL_I2C_ACTIVE_RETRIES. -/
def DEVICE_LEVEL_I2C_ACTIVE_RETRIES : Nat := 10

/-- Slave address constant; the template source holds a placeholder
literal, the concrete value is irrelevant to every claim. -/
def DEVICE_LEVEL_SLAVE_ADDRESS : Nat := 0

/-- Embeds device_level_func_is_i2c_bus_enabled: the internal bus is
usable when the reported status is INTERNAL_ONLY_READY or BOTH_READY. -/
def device_level_is_i2c_bus_enabled (status : i2c_bus_status_t) : Bool :=
  status = i2c_bus_status_t.INTERNAL_ONLY_READY || status = i2c_bus_status_t.BOTH_READY

/-- Embeds device_level_publish_error_response: allocate and publish one
generic error event carrying the code and severity. -/
def device_level_publish_error_response (error_code : error_code_t)
    (error_severity : whoop_error_severity_t) : List device_output :=
  [device_output.publish_generic_error error_code error_severity]

/-- Embeds device_level_publish_status: publish the report matching the
current status field. -/
def device_level_publish_status (me : device_level_t) : List device_output :=
  if me.status = device_level_status_t.DEVICE_LEVEL_ENABLED then
    [device_output.publish_status_report status_report_t.ready_report]
  else if me.status = device_level_status_t.DEVICE_LEVEL_DISABLED then
    [device_output.publish_status_report status_report_t.disable_report]
  else
    [device_output.publish_status_report status_report_t.error_report]

/-- Embeds device_level_try_retry: when the module static retry counter
has reached DEVICE_LEVEL_I2C_ACTIVE_RETRIES return false and post
nothing; otherwise increment the counter, self-post the local retry
signal and return true. -/
def device_level_try_retry (me : device_level_t) :
    device_level_t × Bool × List device_output :=
  if me.retry_counter ≥ DEVICE_LEVEL_I2C_ACTIVE_RETRIES then
    (me, false, [])
  else
    ({me with retry_counter := me.retry_counter + 1}, true,
     [device_output.self_post device_signal.LOCAL_DEVICE_LEVEL_RETRY_SIG])

/-- Embeds device_level_i2c_comm_req: increment the transaction id, build
the single transaction from the stored buffer descriptors and post the
request to the I2C controller AO tagged with the new transaction id. -/
def device_level_i2c_comm_req (me : device_level_t) :
    device_level_t × List device_output :=
  let me1 := {me with i2c_transaction_id := me.i2c_transaction_id + 1}
  let tr0 : i2c_transaction_data_t :=
    { reg_addr_md := i2c_reg_addr_mode_t.I2C_USE_REG_ADDR,
      operation := me1.i2c_operation,
      nak_expected := false,
      rec_data := 0, rec_data_len := 0,
      send_data := 0, send_data_len := 0,
      reg_addr := 0 }
  let tr :=
    if me1.i2c_operation = i2c_ops_t.I2C_READ then
      { tr0 with
          reg_addr := me1.read_data.address,
          rec_data := me1.read_data.p_data,
          rec_data_len := me1.read_data.length }
    else if me1.i2c_operation = i2c_ops_t.I2C_WRITE then
      { tr0 with
          reg_addr := me1.write_data.address,
          send_data := me1.write_data.p_data,
          send_data_len := me1.write_data.length }
    else
      { tr0 with
          reg_addr := me1.write_data.address,
          rec_data := me1.read_data.p_data,
          rec_data_len := me1.read_data.length }
  (me1, [device_output.post_i2c_request me1.i2c_transaction_id
          i2c_bus_id_t.INTERNAL DEVICE_LEVEL_SLAVE_ADDRESS tr])

/-- Embeds device_level_i2c_read: set the operation to read and issue the
communication request. -/
def device_level_i2c_read (me : device_level_t) :
    device_level_t × List device_output :=
  device_level_i2c_comm_req {me with i2c_operation := i2c_ops_t.I2C_READ}

/-- Embeds device_level_i2c_write: set the operation to write and issue
the communication request. -/
def device_level_i2c_write (me : device_level_t) :
    device_level_t × List device_output :=
  device_level_i2c_comm_req {me with i2c_operation := i2c_ops_t.I2C_WRITE}

/-- Ancestor chain of a device HSM state, from the state itself up to the
backstop root, mirroring the Q_SUPER returns of the state handlers. -/
def dancestors : DHState → List DHState
  | DHState.backstop => [DHState.backstop]
  | DHState.disabled => [DHState.disabled, DHState.backstop]
  | DHState.starting => [DHState.starting, DHState.backstop]
  | DHState.enabled => [DHState.enabled, DHState.backstop]
  | DHState.idle => [DHState.idle, DHState.enabled, DHState.backstop]
  | DHState.busy => [DHState.busy, DHState.enabled, DHState.backstop]
  | DHState.read => [DHState.read, DHState.busy, DHState.enabled, DHState.backstop]
  | DHState.write => [DHState.write, DHState.busy, DHState.enabled, DHState.backstop]
  | DHState.error => [DHState.error, DHState.backstop]

/-- Entry action of each device HSM state (the Q_ENTRY_SIG case of its
handler).  Arming a timer is modelled by setting its armed flag. -/
def dEntryAct (h : DHState) (me : device_level_t) :
    device_level_t × List device_output :=
  match h with
  | DHState.disabled =>
      let me1 := {me with status := device_level_status_t.DEVICE_LEVEL_DISABLED}
      (me1, device_level_publish_status me1)
  | DHState.starting =>
      ({me with time_event_armed := true},
       [device_output.self_post device_signal.LOCAL_DEVICE_LEVEL_ACTION_ENTER_IDLE_SIG])
  | DHState.enabled =>
      let me1 := {me with status := device_level_status_t.DEVICE_LEVEL_ENABLED}
      (me1, device_level_publish_status me1 ++
        [device_output.self_post device_signal.LOCAL_DEVICE_LEVEL_ACTION_ENTER_IDLE_SIG])
  | DHState.idle =>
      ({me with status := device_level_status_t.DEVICE_LEVEL_ENABLED,
                i2c_transaction_id := 0}, [])
  | DHState.busy =>
      ({me with busy_timer_armed := true}, [])
  | DHState.read =>
      ({me with time_event_armed := true},
       [device_output.self_post device_signal.LOCAL_DEVICE_LEVEL_I2C_TRANSACTION_START_RW_SIG])
  | DHState.write =>
      ({me with time_event_armed := true},
       [device_output.self_post device_signal.LOCAL_DEVICE_LEVEL_I2C_TRANSACTION_START_RW_SIG])
  | DHState.error =>
      let me1 := {me with status := device_level_status_t.DEVICE_LEVEL_FATAL_ERROR}
      (me1, device_level_publish_status me1)
  | DHState.backstop => (me, [])

/-- Exit action of each device HSM state (the Q_EXIT_SIG case of its
handler).  Disarming a timer clears its armed flag. -/
def dExitAct (h : DHState) (me : device_level_t) :
    device_level_t × List device_output :=
  match h with
  | DHState.starting => ({me with time_event_armed := false}, [])
  | DHState.busy => ({me with busy_timer_armed := false}, [])
  | DHState.read => ({me with time_event_armed := false}, [])
  | DHState.write => ({me with time_event_armed := false}, [])
  | _ => (me, [])

/-- Result of one state handler on one event: consumed with a possibly
updated state, a transition request, or deferral to the superstate. -/
inductive DResult
  | handled (me : device_level_t) (out : List device_output)
  | tran (target : DHState) (me : device_level_t) (out : List device_output)
  | super
deriving Repr

/-- Event cases of each device state handler, translated case by case
from the switch statements of device_level.c (entry and exit probes are
factored into dEntryAct and dExitAct). -/
def dHandler (h : DHState) (me : device_level_t) (e : device_signal) : DResult :=
  match h, e with
  -- device_level_backstop
  | DHState.backstop, device_signal.I2C_BUS_STATUS_SIG bst =>
      if device_level_is_i2c_bus_enabled bst then DResult.handled me []
      else DResult.tran DHState.disabled
        {me with status := device_level_status_t.DEVICE_LEVEL_DISABLED} []
  | DHState.backstop, device_signal.DEVICE_LEVEL_REQ_STAT_SIG =>
      DResult.handled me (device_level_publish_status me)
  | DHState.backstop, device_signal.DEVICE_LEVEL_DISABLE_SIG =>
      DResult.tran DHState.disabled
        {me with status := device_level_status_t.DEVICE_LEVEL_DISABLED} []
  | DHState.backstop, _ => DResult.super  -- unknown signals logged and dropped
  -- device_level_disabled
  | DHState.disabled, device_signal.DEVICE_LEVEL_ENABLE_SIG =>
      DResult.tran DHState.starting me []
  | DHState.disabled, device_signal.DEVICE_LEVEL_DISABLE_SIG =>
      DResult.handled me []
  | DHState.disabled, device_signal.DEVICE_LEVEL_WRITE_SIG _ =>
      DResult.handled me []
  | DHState.disabled, device_signal.DEVICE_LEVEL_READ_SIG _ =>
      DResult.handled me []
  | DHState.disabled, _ => DResult.super
  -- device_level_starting
  | DHState.starting, device_signal.LOCAL_DEVICE_LEVEL_ACTION_ENTER_IDLE_SIG =>
      DResult.tran DHState.idle me []
  | DHState.starting, device_signal.LOCAL_DEVICE_LEVEL_TIMEOUT_SIG =>
      match device_level_try_retry me with
      | (me1, retry_ok, out) =>
        if retry_ok then DResult.handled me1 out
        else DResult.tran DHState.error me1 out
  | DHState.starting, device_signal.DEVICE_LEVEL_ENABLE_SIG =>
      DResult.handled me []
  | DHState.starting, _ => DResult.super
  -- device_level_enabled
  | DHState.enabled, device_signal.LOCAL_DEVICE_LEVEL_ACTION_ENTER_IDLE_SIG =>
      DResult.tran DHState.idle me []
  | DHState.enabled, device_signal.DEVICE_LEVEL_ENABLE_SIG =>
      DResult.handled me []
  | DHState.enabled, _ => DResult.super
  -- device_level_idle
  | DHState.idle, device_signal.DEVICE_LEVEL_WRITE_SIG req =>
      DResult.tran DHState.write
        {me with i2c_operation := i2c_ops_t.I2C_WRITE,
                 device_level_req_id := req.request_id,
                 requestor := req.requestor,
                 write_data := req.buffer} []
  | DHState.idle, device_signal.DEVICE_LEVEL_READ_SIG req =>
      DResult.tran DHState.read
        {me with i2c_operation := i2c_ops_t.I2C_READ,
                 device_level_req_id := req.request_id,
                 requestor := req.requestor,
                 read_data := req.buffer} []
  | DHState.idle, _ => DResult.super
  -- device_level_busy
  | DHState.busy, device_signal.DEVICE_LEVEL_WRITE_SIG _ =>
      DResult.handled {me with last_error := error_code_t.E_WHOOP_DEVICE_LEVEL_BUSY}
        (device_level_publish_error_response error_code_t.E_WHOOP_DEVICE_LEVEL_BUSY
          whoop_error_severity_t.E_S_WHOOP_WARNING)
  | DHState.busy, device_signal.DEVICE_LEVEL_READ_SIG _ =>
      DResult.handled {me with last_error := error_code_t.E_WHOOP_DEVICE_LEVEL_BUSY}
        (device_level_publish_error_response error_code_t.E_WHOOP_DEVICE_LEVEL_BUSY
          whoop_error_severity_t.E_S_WHOOP_WARNING)
  | DHState.busy, device_signal.LOCAL_DEVICE_LEVEL_BUSY_TIMEOUT_SIG =>
      match device_level_try_retry me with
      | (me1, retry_ok, out) =>
        if retry_ok then DResult.handled me1 out
        else
          DResult.tran DHState.idle
            {me1 with last_error := error_code_t.E_WHOOP_DEVICE_LEVEL_I2C_TIMEOUT,
                      last_hal_error := hal_error_t.E_TIME_OUT}
            (out ++ device_level_publish_error_response
              error_code_t.E_WHOOP_DEVICE_LEVEL_I2C_TIMEOUT
              whoop_error_severity_t.E_S_WHOOP_ERROR)
  | DHState.busy, _ => DResult.super
  -- device_level_read
  | DHState.read, device_signal.LOCAL_DEVICE_LEVEL_I2C_TRANSACTION_START_RW_SIG =>
      match device_level_i2c_read me with
      | (me1, out) => DResult.handled me1 out
  | DHState.read, device_signal.I2C_COMM_COMPLETE_SIG response_id =>
      if response_id = me.i2c_transaction_id then
        DResult.tran DHState.idle {me with time_event_armed := false}
          [device_output.post_replyable_response me.requestor me.device_level_req_id
            device_level_req_type_t.DEVICE_LEVEL_READ me.read_data]
      else
        DResult.handled
          {me with last_error := error_code_t.E_WHOOP_DEVICE_LEVEL_MISMATCH_RESP_ID}
          (device_level_publish_error_response
            error_code_t.E_WHOOP_DEVICE_LEVEL_MISMATCH_RESP_ID
            whoop_error_severity_t.E_S_WHOOP_WARNING)
  | DHState.read, device_signal.I2C_COMM_ERROR_SIG response_id ecode =>
      if response_id = me.i2c_transaction_id then
        DResult.tran DHState.error
          {me with time_event_armed := false,
                   last_error := error_code_t.E_WHOOP_DEVICE_LEVEL_I2C_ERROR,
                   last_hal_error := ecode}
          (device_level_publish_error_response (error_code_t.hal ecode)
            whoop_error_severity_t.E_S_WHOOP_ERROR)
      else
        DResult.handled
          {me with last_error := error_code_t.E_WHOOP_DEVICE_LEVEL_MISMATCH_RESP_ID}
          (device_level_publish_error_response
            error_code_t.E_WHOOP_DEVICE_LEVEL_MISMATCH_RESP_ID
            whoop_error_severity_t.E_S_WHOOP_WARNING)
  | DHState.read, device_signal.LOCAL_DEVICE_LEVEL_TIMEOUT_SIG =>
      match device_level_try_retry me with
      | (me1, retry_ok, out) =>
        if retry_ok then DResult.handled me1 out
        else
          DResult.tran DHState.idle
            {me1 with last_error := error_code_t.E_WHOOP_DEVICE_LEVEL_I2C_TIMEOUT,
                      last_hal_error := hal_error_t.E_TIME_OUT}
            (out ++ device_level_publish_error_response
              error_code_t.E_WHOOP_DEVICE_LEVEL_I2C_TIMEOUT
              whoop_error_severity_t.E_S_WHOOP_ERROR)
  | DHState.read, _ => DResult.super
  -- device_level_write
  | DHState.write, device_signal.LOCAL_DEVICE_LEVEL_I2C_TRANSACTION_START_RW_SIG =>
      match device_level_i2c_write {me with i2c_operation := i2c_ops_t.I2C_WRITE} with
      | (me1, out) => DResult.handled me1 out
  | DHState.write, device_signal.I2C_COMM_COMPLETE_SIG response_id =>
      if response_id = me.i2c_transaction_id then
        DResult.tran DHState.idle {me with time_event_armed := false}
          [device_output.post_replyable_response me.requestor me.device_level_req_id
            device_level_req_type_t.DEVICE_LEVEL_WRITE me.write_data]
      else
        DResult.handled
          {me with last_error := error_code_t.E_WHOOP_DEVICE_LEVEL_MISMATCH_RESP_ID}
          (device_level_publish_error_response
            error_code_t.E_WHOOP_DEVICE_LEVEL_MISMATCH_RESP_ID
            whoop_error_severity_t.E_S_WHOOP_WARNING)
  | DHState.write, device_signal.I2C_COMM_ERROR_SIG response_id ecode =>
      if response_id = me.i2c_transaction_id then
        DResult.tran DHState.error
          {me with time_event_armed := false,
                   last_error := error_code_t.E_WHOOP_DEVICE_LEVEL_I2C_ERROR,
                   last_hal_error := ecode}
          (device_level_publish_error_response (error_code_t.hal ecode)
            whoop_error_severity_t.E_S_WHOOP_ERROR)
      else
        DResult.handled
          {me with last_error := error_code_t.E_WHOOP_DEVICE_LEVEL_MISMATCH_RESP_ID}
          (device_level_publish_error_response
            error_code_t.E_WHOOP_DEVICE_LEVEL_MISMATCH_RESP_ID
            whoop_error_severity_t.E_S_WHOOP_WARNING)
  | DHState.write, device_signal.LOCAL_DEVICE_LEVEL_TIMEOUT_SIG =>
      match device_level_try_retry me with
      | (me1, retry_ok, out) =>
        if retry_ok then DResult.handled me1 out
        else
          DResult.tran DHState.idle
            {me1 with last_error := error_code_t.E_WHOOP_DEVICE_LEVEL_I2C_TIMEOUT,
                      last_hal_error := hal_error_t.E_TIME_OUT}
            (out ++ device_level_publish_error_response
              error_code_t.E_WHOOP_DEVICE_LEVEL_I2C_TIMEOUT
              whoop_error_severity_t.E_S_WHOOP_ERROR)
  | DHState.write, _ => DResult.super
  -- device_level_error
  | DHState.error, device_signal.DEVICE_LEVEL_ENABLE_SIG =>
      DResult.tran DHState.starting me []
  | DHState.error, device_signal.DEVICE_LEVEL_DISABLE_SIG =>
      DResult.tran DHState.disabled me []
  | DHState.error, _ => DResult.super

/-- Chain of device states to exit for a transition: the states below
the transition source on the current leaf ancestor chain, followed by
the states from the source up to (excluding) the least common ancestor
of source and target.  When the target is a descendant of the source no
state above the phase-one exits is left. -/
def dexitChain (leaf src tgt : DHState) : List DHState :=
  let phase1 := (dancestors leaf).takeWhile (fun a => a ≠ src)
  if src = tgt then phase1 ++ [src]
  else if (dancestors tgt).contains src then phase1
  else phase1 ++ (dancestors src).takeWhile (fun a => ¬ (dancestors tgt).contains a)

/-- Chain of device states to enter for a transition, outermost first:
the ancestors of the target strictly below the least common ancestor of
source and target (below the source itself when the target is its
descendant). -/
def dentryChain (src tgt : DHState) : List DHState :=
  if src = tgt then [tgt]
  else if (dancestors tgt).contains src then
    ((dancestors tgt).takeWhile (fun a => a ≠ src)).reverse
  else
    ((dancestors tgt).takeWhile (fun a => ¬ (dancestors src).contains a)).reverse

/-- Runs a list of per-state actions in order, threading the state and
concatenating the emitted outputs. -/
def drunActs (act : DHState → device_level_t → device_level_t × List device_output) :
    List DHState → device_level_t → device_level_t × List device_output
  | [], me => (me, [])
  | h :: rest, me =>
      let r1 := act h me
      let r2 := drunActs act rest r1.1
      (r2.1, r1.2 ++ r2.2)

/-- Bubbles an event up a handler chain; a transition executes the exit
chain, then the entry chain, and lands on the target leaf. -/
def device_dispatch_from (leaf : DHState) (me : device_level_t)
    (e : device_signal) : List DHState → device_level_t × List device_output
  | [] => (me, [])
  | h :: rest =>
    match dHandler h me e with
    | DResult.super => device_dispatch_from leaf me e rest
    | DResult.handled me1 out => (me1, out)
    | DResult.tran tgt me1 out =>
        let r2 := drunActs dExitAct (dexitChain leaf h tgt) me1
        let r3 := drunActs dEntryAct (dentryChain h tgt) r2.1
        ({r3.1 with leaf := tgt}, out ++ r2.2 ++ r3.2)

/-- Dispatches one event to the device AO, QHsm style: bubble from the
current leaf up the ancestor chain; an event no handler consumes is
logged and dropped by the backstop default case. -/
def device_dispatch (me : device_level_t) (e : device_signal) :
    device_level_t × List device_output :=
  device_dispatch_from me.leaf me e (dancestors me.leaf)

/-- Dispatches a list of events in order, concatenating the outputs. -/
def device_run : device_level_t → List device_signal →
    device_level_t × List device_output
  | me, [] => (me, [])
  | me, e :: es =>
      let r1 := device_dispatch me e
      let r2 := device_run r1.1 es
      (r2.1, r1.2 ++ r2.2)

/-- The device AO state right after construction and the initial
pseudostate: the static initializer of ao_device_level, the status set
to disabled by device_level_initial, and the initial transition into the
disabled state taken (its entry publishes the disable report). -/
def device_level_post_initial : device_level_t :=
  { leaf := DHState.disabled
  , debug_level := 1
  , status := device_level_status_t.DEVICE_LEVEL_DISABLED
  , i2c_transaction_id := 0
  , i2c_operation := i2c_ops_t.I2C_READ
  , device_level_req_id := 0
  , requestor := 0
  , read_data := { address := 0, p_data := 0, length := 0 }
  , write_data := { address := 0, p_data := 0, length := 0 }
  , last_error := error_code_t.E_WHOOP_NO_ERROR
  , last_hal_error := hal_error_t.E_NO_ERROR
  , time_event_armed := false
  , busy_timer_armed := false
  , retry_counter := 0 }

/-- Transaction ids of the I2C requests dispatched to the controller AO,
in emission order. -/
def device_dispatched_ids (outs : List device_output) : List Nat :=
  outs.filterMap (fun o =>
    match o with
    | device_output.post_i2c_request rid _ _ _ => some rid
    | _ => none)

/-- Decides whether a list of ids is strictly increasing (which also
rules out any reuse of an id). -/
def strictlyIncreasingIds : List Nat → Bool
  | [] => true
  | [_] => true
  | a :: b :: rest => a < b && strictlyIncreasingIds (b :: rest)

/-- Decides whether a run stays inside the busy superstate of the device
AO: every state reached, the starting one included, has the read or
write leaf. -/
def device_run_stays_busy : device_level_t → List device_signal → Bool
  | me, [] => me.leaf = DHState.read || me.leaf = DHState.write
  | me, e :: es =>
      (me.leaf = DHState.read || me.leaf = DHState.write) &&
      device_run_stays_busy (device_dispatch me e).1 es

/-- Decides whether an output list contains a replyable response posted
to the given destination AO. -/
def device_outputs_contain_reply_to (outs : List device_output) (dest : Nat) : Bool :=
  outs.any (fun o =>
    match o with
    | device_output.post_replyable_response d _ _ _ => d = dest
    | _ => false)

/-- Status enumeration of the API AO. -/
inductive api_level_status_t
  | API_LEVEL_UNKNOWN
  | API_LEVEL_DISABLED
  | API_LEVEL_ENABLED
  | API_LEVEL_FATAL_ERROR
deriving DecidableEq, Repr

/-- Signals delivered to the API AO.  The client request events are
peripheral specific and carry an opaque payload; api_level.c contains no
handler case for them, nor for the device level response event, so both
are modelled as signals that fall through every switch to the default
case. -/
inductive api_signal
  | API_LEVEL_ENABLE_SIG
  | API_LEVEL_DISABLE_SIG
  | API_LEVEL_REQ_STATUS_SIG
  | DEBUG_LEVEL_SIG (new_debug_level : Nat)
  | DEVICE_LEVEL_READY_REPORT_SIG
  | DEVICE_LEVEL_DISABLE_REPORT_SIG
  | DEVICE_LEVEL_ERROR_REPORT_SIG
  | DEVICE_LEVEL_RESPONSE_SIG (req_type : device_level_req_type_t)
      (buffer : device_level_buffer_t)
  | client_request_sig (payload : Nat)
  | LOCAL_API_LEVEL_TIMEOUT_SIG
  | LOCAL_API_LEVEL_BUSY_TIMEOUT_SIG
  | LOCAL_API_LEVEL_START_INIT_SIG
  | LOCAL_API_LEVEL_RETRY_SIG
deriving DecidableEq, Repr

/-- Observable effects emitted by the API AO handlers. -/
inductive api_output
  | self_post (sig : api_signal)
  | post_device_level (sig : device_signal)
  | publish_generic_error (code : error_code_t) (severity : whoop_error_severity_t)
  | publish_status_report (r : status_report_t)
deriving DecidableEq, Repr

/-- States of the API HSM. -/
inductive AHState
  | backstop
  | disabled
  | starting
  | enabled
  | idle
  | busy
  | error
deriving DecidableEq, Repr

/-- The API AO state record (api_level_t plus the module static debug
level, the timer armed flags and the current HSM leaf state).  The
deferred event queue is the bounded FIFO declared in api_level_t; no
handler in api_level.c ever inserts into or recalls from it. -/
structure api_level_t where
  leaf : AHState
  requestor : Nat
  request_id : Nat
  deferred_event_queue : List api_signal
  time_event_armed : Bool
  busy_event_armed : Bool
  status : api_level_status_t
  last_error : error_code_t
  debug_level : Nat
deriving DecidableEq, Repr

/-- Deferred queue capacity API_LEVEL_DEFERRED_QUEUE_SIZE. -/
def API_LEVEL_DEFERRED_QUEUE_SIZE : Nat := 5

/-- Embeds api_level_error_response: allocate and publish one generic
error event carrying the code and severity. -/
def api_level_error_response (error_code : error_code_t)
    (error_severity : whoop_error_severity_t) : List api_output :=
  [api_output.publish_generic_error error_code error_severity]

/-- Embeds api_level_publish_status: publish the report matching the
current status field. -/
def api_level_publish_status (me : api_level_t) : List api_output :=
  if me.status = api_level_status_t.API_LEVEL_ENABLED then
    [api_output.publish_status_report status_report_t.ready_report]
  else if me.status = api_level_status_t.API_LEVEL_DISABLED then
    [api_output.publish_status_report status_report_t.disable_report]
  else
    [api_output.publish_status_report status_report_t.error_report]

/-- Ancestor chain of an API HSM state, from the state itself up to the
backstop root. -/
def aancestors : AHState → List AHState
  | AHState.backstop => [AHState.backstop]
  | AHState.disabled => [AHState.disabled, AHState.backstop]
  | AHState.starting => [AHState.starting, AHState.backstop]
  | AHState.enabled => [AHState.enabled, AHState.backstop]
  | AHState.idle => [AHState.idle, AHState.enabled, AHState.backstop]
  | AHState.busy => [AHState.busy, AHState.enabled, AHState.backstop]
  | AHState.error => [AHState.error, AHState.backstop]

/-- Entry action of each API HSM state.  Timing statistics calls are not
modelled; the enabled entry disarms the lockup timer as the code does. -/
def aEntryAct (h : AHState) (me : api_level_t) :
    api_level_t × List api_output :=
  match h with
  | AHState.disabled =>
      let me1 := {me with status := api_level_status_t.API_LEVEL_DISABLED}
      (me1, api_level_publish_status me1)
  | AHState.starting =>
      (me, [api_output.self_post api_signal.LOCAL_API_LEVEL_START_INIT_SIG])
  | AHState.enabled =>
      let me1 := {me with time_event_armed := false,
                          status := api_level_status_t.API_LEVEL_ENABLED}
      (me1, api_level_publish_status me1)
  | AHState.idle =>
      ({me with status := api_level_status_t.API_LEVEL_ENABLED}, [])
  | AHState.busy =>
      ({me with busy_event_armed := true}, [])
  | AHState.error =>
      let me1 := {me with status := api_level_status_t.API_LEVEL_FATAL_ERROR}
      (me1, api_level_publish_status me1)
  | AHState.backstop => (me, [])

/-- Exit action of each API HSM state. -/
def aExitAct (h : AHState) (me : api_level_t) :
    api_level_t × List api_output :=
  match h with
  | AHState.starting => ({me with time_event_armed := false}, [])
  | AHState.busy => ({me with busy_event_armed := false}, [])
  | _ => (me, [])

/-- Result of one API state handler on one event. -/
inductive AResult
  | handled (me : api_level_t) (out : List api_output)
  | tran (target : AHState) (me : api_level_t) (out : List api_output)
  | super
deriving Repr

/-- Event cases of each API state handler, translated from the switch
statements of api_level.c.  The commented-out deferral block in the busy
state is not part of the compiled code and is therefore absent here. -/
def aHandler (h : AHState) (me : api_level_t) (e : api_signal) : AResult :=
  match h, e with
  -- api_level_backstop
  | AHState.backstop, api_signal.DEBUG_LEVEL_SIG lvl =>
      AResult.handled {me with debug_level := lvl} []
  | AHState.backstop, api_signal.API_LEVEL_REQ_STATUS_SIG =>
      -- the code publishes and falls through without Q_HANDLED; the event
      -- then dies at QHsm_top, so the observable effect is the publish
      AResult.handled me (api_level_publish_status me)
  | AHState.backstop, api_signal.API_LEVEL_DISABLE_SIG =>
      AResult.tran AHState.disabled
        {me with status := api_level_status_t.API_LEVEL_DISABLED}
        [api_output.post_device_level device_signal.DEVICE_LEVEL_DISABLE_SIG]
  | AHState.backstop, api_signal.DEVICE_LEVEL_ERROR_REPORT_SIG =>
      AResult.tran AHState.error
        {me with status := api_level_status_t.API_LEVEL_FATAL_ERROR,
                 last_error := error_code_t.E_WHOOP_API_LEVEL_DEVICE_LEVEL_UNAVAILABLE}
        (api_level_error_response
          error_code_t.E_WHOOP_API_LEVEL_DEVICE_LEVEL_UNAVAILABLE
          whoop_error_severity_t.E_S_WHOOP_ERROR)
  | AHState.backstop, _ => AResult.super  -- unknown signals logged and dropped
  -- api_level_disabled
  | AHState.disabled, api_signal.API_LEVEL_ENABLE_SIG =>
      AResult.tran AHState.starting me []
  | AHState.disabled, api_signal.API_LEVEL_DISABLE_SIG =>
      AResult.handled me []
  | AHState.disabled, _ => AResult.super
  -- api_level_starting
  | AHState.starting, api_signal.LOCAL_API_LEVEL_RETRY_SIG =>
      AResult.handled {me with time_event_armed := true}
        [api_output.post_device_level device_signal.DEVICE_LEVEL_ENABLE_SIG]
  | AHState.starting, api_signal.LOCAL_API_LEVEL_START_INIT_SIG =>
      AResult.handled {me with time_event_armed := true}
        [api_output.post_device_level device_signal.DEVICE_LEVEL_ENABLE_SIG]
  | AHState.starting, api_signal.DEVICE_LEVEL_READY_REPORT_SIG =>
      AResult.tran AHState.idle me []
  | AHState.starting, api_signal.DEVICE_LEVEL_ERROR_REPORT_SIG =>
      AResult.tran AHState.error
        {me with status := api_level_status_t.API_LEVEL_FATAL_ERROR,
                 last_error := error_code_t.E_WHOOP_API_LEVEL_DEVICE_LEVEL_UNAVAILABLE}
        (api_level_error_response
          error_code_t.E_WHOOP_API_LEVEL_DEVICE_LEVEL_UNAVAILABLE
          whoop_error_severity_t.E_S_WHOOP_ERROR)
  | AHState.starting, api_signal.LOCAL_API_LEVEL_TIMEOUT_SIG =>
      AResult.tran AHState.error
        {me with status := api_level_status_t.API_LEVEL_FATAL_ERROR,
                 last_error := error_code_t.E_WHOOP_API_LEVEL_TIMEOUT}
        (api_level_error_response error_code_t.E_WHOOP_API_LEVEL_TIMEOUT
          whoop_error_severity_t.E_S_WHOOP_ERROR)
  | AHState.starting, api_signal.API_LEVEL_ENABLE_SIG =>
      AResult.handled me []
  | AHState.starting, _ => AResult.super
  -- api_level_enabled
  | AHState.enabled, api_signal.API_LEVEL_ENABLE_SIG =>
      AResult.handled me []
  | AHState.enabled, api_signal.API_LEVEL_DISABLE_SIG =>
      AResult.tran AHState.disabled
        {me with status := api_level_status_t.API_LEVEL_DISABLED} []
  | AHState.enabled, _ => AResult.super
  -- api_level_idle: only entry and exit cases exist
  | AHState.idle, _ => AResult.super
  -- api_level_busy: the deferral of client requests exists only inside a
  -- comment in the source, so only the busy timeout case is live
  | AHState.busy, api_signal.LOCAL_API_LEVEL_BUSY_TIMEOUT_SIG =>
      AResult.tran AHState.idle
        {me with last_error := error_code_t.E_WHOOP_API_LEVEL_BUSY_TIMEOUT}
        (api_level_error_response error_code_t.E_WHOOP_API_LEVEL_BUSY_TIMEOUT
          whoop_error_severity_t.E_S_WHOOP_ERROR)
  | AHState.busy, _ => AResult.super
  -- api_level_error
  | AHState.error, api_signal.API_LEVEL_ENABLE_SIG =>
      AResult.tran AHState.starting me []
  | AHState.error, api_signal.API_LEVEL_DISABLE_SIG =>
      AResult.tran AHState.disabled me []
  | AHState.error, _ => AResult.super

/-- Chain of API states to exit for a transition (same rule as the
device dispatcher). -/
def aexitChain (leaf src tgt : AHState) : List AHState :=
  let phase1 := (aancestors leaf).takeWhile (fun a => a ≠ src)
  if src = tgt then phase1 ++ [src]
  else if (aancestors tgt).contains src then phase1
  else phase1 ++ (aancestors src).takeWhile (fun a => ¬ (aancestors tgt).contains a)

/-- Chain of API states to enter for a transition, outermost first. -/
def aentryChain (src tgt : AHState) : List AHState :=
  if src = tgt then [tgt]
  else if (aancestors tgt).contains src then
    ((aancestors tgt).takeWhile (fun a => a ≠ src)).reverse
  else
    ((aancestors tgt).takeWhile (fun a => ¬ (aancestors src).contains a)).reverse

/-- Runs a list of per-state API actions in order. -/
def arunActs (act : AHState → api_level_t → api_level_t × List api_output) :
    List AHState → api_level_t → api_level_t × List api_output
  | [], me => (me, [])
  | h :: rest, me =>
      let r1 := act h me
      let r2 := arunActs act rest r1.1
      (r2.1, r1.2 ++ r2.2)

/-- Bubbles an event up an API handler chain. -/
def api_dispatch_from (leaf : AHState) (me : api_level_t)
    (e : api_signal) : List AHState → api_level_t × List api_output
  | [] => (me, [])
  | h :: rest =>
    match aHandler h me e with
    | AResult.super => api_dispatch_from leaf me e rest
    | AResult.handled me1 out => (me1, out)
    | AResult.tran tgt me1 out =>
        let r2 := arunActs aExitAct (aexitChain leaf h tgt) me1
        let r3 := arunActs aEntryAct (aentryChain h tgt) r2.1
        ({r3.1 with leaf := tgt}, out ++ r2.2 ++ r3.2)

/-- Dispatches one event to the API AO. -/
def api_dispatch (me : api_level_t) (e : api_signal) :
    api_level_t × List api_output :=
  api_dispatch_from me.leaf me e (aancestors me.leaf)

/-- Iterates the state effect of device_level_try_retry. -/
def device_level_try_retry_iter (me : device_level_t) : Nat → device_level_t
  | 0 => me
  | n + 1 => device_level_try_retry_iter (device_level_try_retry me).1 n

/-- A concrete replyable read request used by witnesses. -/
def example_request : replyable_request_t :=
  { request_id := 9, requestor := 42, buffer := { address := 16, p_data := 5, length := 2 } }

/-- A second concrete request from a different caller, used to show that
requests rejected in the busy superstate get no reply. -/
def example_request_b : replyable_request_t :=
  { request_id := 3, requestor := 77, buffer := { address := 32, p_data := 6, length := 1 } }

/-- A concrete device AO state in the middle of a read transaction:
transaction id 1 has been dispatched for the caller of example_request
and both timers are armed. -/
def device_busy_read_example : device_level_t :=
  { leaf := DHState.read
  , debug_level := 1
  , status := device_level_status_t.DEVICE_LEVEL_ENABLED
  , i2c_transaction_id := 1
  , i2c_operation := i2c_ops_t.I2C_READ
  , device_level_req_id := 9
  , requestor := 42
  , read_data := { address := 16, p_data := 5, length := 2 }
  , write_data := { address := 0, p_data := 0, length := 0 }
  , last_error := error_code_t.E_WHOOP_NO_ERROR
  , last_hal_error := hal_error_t.E_NO_ERROR
  , time_event_armed := true
  , busy_timer_armed := true
  , retry_counter := 0 }

/-- A device AO state with a chosen value of the retry counter, used by
witnesses of the retry bound. -/
def device_retry_probe (k : Nat) : device_level_t :=
  {device_level_post_initial with retry_counter := k}

/-- A concrete API AO state inside the busy state with an empty deferred
queue and the busy timer armed. -/
def api_busy_example : api_level_t :=
  { leaf := AHState.busy
  , requestor := 0
  , request_id := 0
  , deferred_event_queue := []
  , time_event_armed := false
  , busy_event_armed := true
  , status := api_level_status_t.API_LEVEL_ENABLED
  , last_error := error_code_t.E_WHOOP_NO_ERROR
  , debug_level := 1 }

/-- C6: for every sequence of calls to the device AO retry helper the
counter never exceeds the bound of 10; a call under the bound increments
the counter, self-posts the local retry signal and returns true; a call
at or past the bound returns false and posts nothing. -/
theorem device_level_try_retry_spec :
    (∀ me : device_level_t,
      me.retry_counter < DEVICE_LEVEL_I2C_ACTIVE_RETRIES →
      device_level_try_retry me =
        ({me with retry_counter := me.retry_counter + 1}, true,
         [device_output.self_post device_signal.LOCAL_DEVICE_LEVEL_RETRY_SIG])) ∧
    (∀ me : device_level_t,
      DEVICE_LEVEL_I2C_ACTIVE_RETRIES ≤ me.retry_counter →
      device_level_try_retry me = (me, false, [])) ∧
    (∀ me : device_level_t, ∀ n : Nat,
      me.retry_counter ≤ DEVICE_LEVEL_I2C_ACTIVE_RETRIES →
      (device_level_try_retry_iter me n).retry_counter ≤ DEVICE_LEVEL_I2C_ACTIVE_RETRIES) := by
  refine ⟨?_, ?_, ?_⟩
  · intro me h
    simp only [device_level_try_retry]
    rw [if_neg (by omega)]
  · intro me h
    simp only [device_level_try_retry]
    rw [if_pos h]
  · intro me n
    induction n generalizing me with
    | zero => intro h; simpa [device_level_try_retry_iter] using h
    | succ k ih =>
      intro h
      simp only [device_level_try_retry_iter]
      apply ih
      simp only [device_level_try_retry]
      by_cases hb : me.retry_counter ≥ DEVICE_LEVEL_I2C_ACTIVE_RETRIES
      · rw [if_pos hb]; exact h
      · rw [if_neg hb]; simp; omega

/-- Witness for C6: the retry helper evaluated at counter values 3 and
10, and twenty-five successive calls starting from the initial state. -/
theorem device_level_try_retry_spec_witness :
    device_level_try_retry (device_retry_probe 3) =
      ({device_retry_probe 3 with retry_counter := 4}, true,
       [device_output.self_post device_signal.LOCAL_DEVICE_LEVEL_RETRY_SIG]) ∧
    device_level_try_retry (device_retry_probe 10) = (device_retry_probe 10, false, []) ∧
    (device_level_try_retry_iter (device_retry_probe 0) 25).retry_counter ≤
      DEVICE_LEVEL_I2C_ACTIVE_RETRIES :=
  ⟨device_level_try_retry_spec.1 (device_retry_probe 3) (by decide),
   device_level_try_retry_spec.2.1 (device_retry_probe 10) (by decide),
   device_level_try_retry_spec.2.2 (device_retry_probe 0) 25 (by decide)⟩

/-- C8: in the disabled state and in the fatal error state a read or
write request leaves the device AO state (leaf state, status and the
whole transaction context) unchanged and produces no output at all; in
particular no I2C request event is posted to the controller AO. -/
theorem disabled_or_error_request_no_side_effects (me : device_level_t)
    (req : replyable_request_t)
    (h : me.leaf = DHState.disabled ∨ me.leaf = DHState.error) :
    device_dispatch me (device_signal.DEVICE_LEVEL_READ_SIG req) = (me, []) ∧
    device_dispatch me (device_signal.DEVICE_LEVEL_WRITE_SIG req) = (me, []) := by
  rcases h with h | h <;>
    simp [device_dispatch, h, dancestors, device_dispatch_from, dHandler]

/-- Witness for C8: a read request delivered to the freshly initialized
(disabled) device AO is dropped without effects. -/
theorem disabled_or_error_request_no_side_effects_witness :
    device_dispatch device_level_post_initial
      (device_signal.DEVICE_LEVEL_READ_SIG example_request) =
      (device_level_post_initial, []) ∧
    device_dispatch device_level_post_initial
      (device_signal.DEVICE_LEVEL_WRITE_SIG example_request) =
      (device_level_post_initial, []) :=
  disabled_or_error_request_no_side_effects device_level_post_initial example_request
    (Or.inl rfl)

/-- C9: in both AOs, every state whose entry action arms a timer has an
exit action that disarms that same timer, so no armed timer survives
leaving the state that armed it.  A state entry is said to arm a timer
when it leaves the armed flag set from every prior state. -/
theorem timer_armed_on_entry_disarmed_on_exit :
    (∀ h : DHState,
      (∀ me, ((dEntryAct h me).1).time_event_armed = true) →
      ∀ me, ((dExitAct h me).1).time_event_armed = false) ∧
    (∀ h : DHState,
      (∀ me, ((dEntryAct h me).1).busy_timer_armed = true) →
      ∀ me, ((dExitAct h me).1).busy_timer_armed = false) ∧
    (∀ h : AHState,
      (∀ me, ((aEntryAct h me).1).time_event_armed = true) →
      ∀ me, ((aExitAct h me).1).time_event_armed = false) ∧
    (∀ h : AHState,
      (∀ me, ((aEntryAct h me).1).busy_event_armed = true) →
      ∀ me, ((aExitAct h me).1).busy_event_armed = false) := by
  refine ⟨?_, ?_, ?_, ?_⟩
  · intro h hyp me
    cases h <;>
      first
        | rfl
        | (exfalso
           have hp := hyp device_level_post_initial
           simp [dEntryAct, device_level_publish_status,
             device_level_post_initial] at hp)
  · intro h hyp me
    cases h <;>
      first
        | rfl
        | (exfalso
           have hp := hyp device_level_post_initial
           simp [dEntryAct, device_level_publish_status,
             device_level_post_initial] at hp)
  · intro h hyp me
    cases h <;>
      first
        | rfl
        | (exfalso
           have hp := hyp api_busy_example
           simp [aEntryAct, api_level_publish_status, api_busy_example] at hp)
  · intro h hyp me
    cases h <;>
      first
        | rfl
        | (exfalso
           have hp := hyp {api_busy_example with busy_event_armed := false}
           simp [aEntryAct, api_level_publish_status, api_busy_example] at hp)

/-- Witness for C9: the read state entry arms the lockup timer and its
exit disarms it; the device busy state entry arms the busy timer and its
exit disarms it. -/
theorem timer_armed_on_entry_disarmed_on_exit_witness :
    ((dExitAct DHState.read device_busy_read_example).1).time_event_armed = false ∧
    ((dExitAct DHState.busy device_busy_read_example).1).busy_timer_armed = false :=
  ⟨timer_armed_on_entry_disarmed_on_exit.1 DHState.read (fun _ => rfl)
      device_busy_read_example,
   timer_armed_on_entry_disarmed_on_exit.2.1 DHState.busy (fun _ => rfl)
      device_busy_read_example⟩

/-- C10: from every state of the device AO, an I2C bus status report
that is neither INTERNAL_ONLY_READY nor BOTH_READY drives the AO into
the disabled state with status disabled, abandoning anything in flight. -/
theorem bus_not_ready_forces_disabled (me : device_level_t)
    (b : i2c_bus_status_t)
    (h : b ≠ i2c_bus_status_t.INTERNAL_ONLY_READY ∧ b ≠ i2c_bus_status_t.BOTH_READY) :
    ((device_dispatch me (device_signal.I2C_BUS_STATUS_SIG b)).1).leaf =
      DHState.disabled ∧
    ((device_dispatch me (device_signal.I2C_BUS_STATUS_SIG b)).1).status =
      device_level_status_t.DEVICE_LEVEL_DISABLED := by
  have hb : device_level_is_i2c_bus_enabled b = false := by
    cases b <;> simp_all [device_level_is_i2c_bus_enabled]
  cases hl : me.leaf <;>
    simp [device_dispatch, hl, dancestors, device_dispatch_from, dHandler, hb,
      dexitChain, dentryChain, drunActs, dExitAct, dEntryAct,
      device_level_publish_status]

/-- Witness for C10: a NONE_READY report delivered during an in-flight
read lands the device AO in the disabled state. -/
theorem bus_not_ready_forces_disabled_witness :
    ((device_dispatch device_busy_read_example
        (device_signal.I2C_BUS_STATUS_SIG i2c_bus_status_t.NONE_READY)).1).leaf =
      DHState.disabled ∧
    ((device_dispatch device_busy_read_example
        (device_signal.I2C_BUS_STATUS_SIG i2c_bus_status_t.NONE_READY)).1).status =
      device_level_status_t.DEVICE_LEVEL_DISABLED :=
  bus_not_ready_forces_disabled device_busy_read_example i2c_bus_status_t.NONE_READY
    (by decide)

/-- C2: in the read or write state, a completion reply whose echoed id
equals the current transaction id disarms the lockup timer, posts exactly
one response event carrying the stored buffer descriptor and operation
kind back to the original requester under the original request id, and
transitions to idle; a completion reply with any other id only publishes
the mismatch warning and causes no state transition. -/
theorem completion_reply_correlation (me : device_level_t) (rid : Nat)
    (h : me.leaf = DHState.read ∨ me.leaf = DHState.write) :
    (rid = me.i2c_transaction_id →
      device_dispatch me (device_signal.I2C_COMM_COMPLETE_SIG rid) =
        ({me with leaf := DHState.idle,
                  status := device_level_status_t.DEVICE_LEVEL_ENABLED,
                  i2c_transaction_id := 0,
                  time_event_armed := false,
                  busy_timer_armed := false},
         [device_output.post_replyable_response me.requestor me.device_level_req_id
            (if me.leaf = DHState.read then device_level_req_type_t.DEVICE_LEVEL_READ
             else device_level_req_type_t.DEVICE_LEVEL_WRITE)
            (if me.leaf = DHState.read then me.read_data else me.write_data)])) ∧
    (rid ≠ me.i2c_transaction_id →
      device_dispatch me (device_signal.I2C_COMM_COMPLETE_SIG rid) =
        ({me with last_error := error_code_t.E_WHOOP_DEVICE_LEVEL_MISMATCH_RESP_ID},
         [device_output.publish_generic_error
            error_code_t.E_WHOOP_DEVICE_LEVEL_MISMATCH_RESP_ID
            whoop_error_severity_t.E_S_WHOOP_WARNING])) := by
  constructor <;> intro hr <;> rcases h with h | h <;>
    simp [device_dispatch, h, hr, dancestors, device_dispatch_from, dHandler,
      dexitChain, dentryChain, drunActs, dExitAct, dEntryAct,
      device_level_publish_error_response]

/-- Witness for C2: the concrete in-flight read with transaction id 1
receiving a matching completion (id 1) and a stale completion (id 7). -/
theorem completion_reply_correlation_witness :
    device_dispatch device_busy_read_example (device_signal.I2C_COMM_COMPLETE_SIG 1) =
      ({device_busy_read_example with
          leaf := DHState.idle,
          status := device_level_status_t.DEVICE_LEVEL_ENABLED,
          i2c_transaction_id := 0,
          time_event_armed := false,
          busy_timer_armed := false},
       [device_output.post_replyable_response 42 9
          device_level_req_type_t.DEVICE_LEVEL_READ
          { address := 16, p_data := 5, length := 2 }]) ∧
    device_dispatch device_busy_read_example (device_signal.I2C_COMM_COMPLETE_SIG 7) =
      ({device_busy_read_example with
          last_error := error_code_t.E_WHOOP_DEVICE_LEVEL_MISMATCH_RESP_ID},
       [device_output.publish_generic_error
          error_code_t.E_WHOOP_DEVICE_LEVEL_MISMATCH_RESP_ID
          whoop_error_severity_t.E_S_WHOOP_WARNING]) :=
  ⟨(completion_reply_correlation device_busy_read_example 1 (Or.inl rfl)).1 (by decide),
   (completion_reply_correlation device_busy_read_example 7 (Or.inl rfl)).2 (by decide)⟩

/-- C7 counterexample: a read request arriving during an in-flight read
is answered only by a published generic busy error; no reply of any kind
is posted to the caller of the rejected request (caller 77), so the
rejection is not a busy error reply to that caller. -/
theorem busy_request_no_caller_reply_counterexample :
    (device_dispatch device_busy_read_example
        (device_signal.DEVICE_LEVEL_READ_SIG example_request_b)).2 =
      [device_output.publish_generic_error error_code_t.E_WHOOP_DEVICE_LEVEL_BUSY
         whoop_error_severity_t.E_S_WHOOP_WARNING] ∧
    device_outputs_contain_reply_to
      (device_dispatch device_busy_read_example
        (device_signal.DEVICE_LEVEL_READ_SIG example_request_b)).2
      example_request_b.requestor = false := by
  decide

/-- C7 amended: a read or write request arriving in the busy superstate
is rejected by publishing a generic error with the busy code at warning
severity on the event bus (no reply is posted to the rejected request
caller); the only state change is the last error record, so there is no
transition out of the current state. -/
theorem busy_request_rejected_by_publication (me : device_level_t)
    (req : replyable_request_t)
    (h : me.leaf = DHState.read ∨ me.leaf = DHState.write) :
    device_dispatch me (device_signal.DEVICE_LEVEL_READ_SIG req) =
      ({me with last_error := error_code_t.E_WHOOP_DEVICE_LEVEL_BUSY},
       [device_output.publish_generic_error error_code_t.E_WHOOP_DEVICE_LEVEL_BUSY
          whoop_error_severity_t.E_S_WHOOP_WARNING]) ∧
    device_dispatch me (device_signal.DEVICE_LEVEL_WRITE_SIG req) =
      ({me with last_error := error_code_t.E_WHOOP_DEVICE_LEVEL_BUSY},
       [device_output.publish_generic_error error_code_t.E_WHOOP_DEVICE_LEVEL_BUSY
          whoop_error_severity_t.E_S_WHOOP_WARNING]) := by
  rcases h with h | h <;>
    simp [device_dispatch, h, dancestors, device_dispatch_from, dHandler,
      device_level_publish_error_response]

/-- Witness for the amended C7: the concrete in-flight read receiving a
new write request. -/
theorem busy_request_rejected_by_publication_witness :
    device_dispatch device_busy_read_example
      (device_signal.DEVICE_LEVEL_WRITE_SIG example_request_b) =
      ({device_busy_read_example with
          last_error := error_code_t.E_WHOOP_DEVICE_LEVEL_BUSY},
       [device_output.publish_generic_error error_code_t.E_WHOOP_DEVICE_LEVEL_BUSY
          whoop_error_severity_t.E_S_WHOOP_WARNING]) :=
  (busy_request_rejected_by_publication device_busy_read_example example_request_b
    (Or.inl rfl)).2

/-- C5 counterexample: an id-matching I2C error reply during the
in-flight read produces only the published generic error and the fatal
status report published on entering the error state; no correlated error
reply is posted to the originating caller (requestor 42). -/
theorem inflight_error_no_caller_reply_counterexample :
    (device_dispatch device_busy_read_example
        (device_signal.I2C_COMM_ERROR_SIG 1 (hal_error_t.hal_code 66))).2 =
      [device_output.publish_generic_error
         (error_code_t.hal (hal_error_t.hal_code 66))
         whoop_error_severity_t.E_S_WHOOP_ERROR,
       device_output.publish_status_report status_report_t.error_report] ∧
    device_outputs_contain_reply_to
      (device_dispatch device_busy_read_example
        (device_signal.I2C_COMM_ERROR_SIG 1 (hal_error_t.hal_code 66))).2
      device_busy_read_example.requestor = false := by
  decide

/-- C5 amended: an id-matching I2C error reply in the read or write
state publishes the HAL error as a generic error at error severity and
transitions to the fatal error state (whose entry publishes the error
status report); an operation timeout with retries exhausted publishes
the timeout error and returns to idle.  In both cases the error only
reaches observers through the publish/subscribe bus; no correlated error
reply is sent to the originating caller. -/
theorem inflight_error_published_only (me : device_level_t)
    (ecode : hal_error_t)
    (h : me.leaf = DHState.read ∨ me.leaf = DHState.write) :
    (device_dispatch me
        (device_signal.I2C_COMM_ERROR_SIG me.i2c_transaction_id ecode) =
      ({me with leaf := DHState.error,
                status := device_level_status_t.DEVICE_LEVEL_FATAL_ERROR,
                last_error := error_code_t.E_WHOOP_DEVICE_LEVEL_I2C_ERROR,
                last_hal_error := ecode,
                time_event_armed := false,
                busy_timer_armed := false},
       [device_output.publish_generic_error (error_code_t.hal ecode)
          whoop_error_severity_t.E_S_WHOOP_ERROR,
        device_output.publish_status_report status_report_t.error_report])) ∧
    (DEVICE_LEVEL_I2C_ACTIVE_RETRIES ≤ me.retry_counter →
      device_dispatch me device_signal.LOCAL_DEVICE_LEVEL_TIMEOUT_SIG =
        ({me with leaf := DHState.idle,
                  status := device_level_status_t.DEVICE_LEVEL_ENABLED,
                  i2c_transaction_id := 0,
                  last_error := error_code_t.E_WHOOP_DEVICE_LEVEL_I2C_TIMEOUT,
                  last_hal_error := hal_error_t.E_TIME_OUT,
                  time_event_armed := false,
                  busy_timer_armed := false},
         [device_output.publish_generic_error
            error_code_t.E_WHOOP_DEVICE_LEVEL_I2C_TIMEOUT
            whoop_error_severity_t.E_S_WHOOP_ERROR])) := by
  constructor
  · rcases h with h | h <;>
      simp [device_dispatch, h, dancestors, device_dispatch_from, dHandler,
        dexitChain, dentryChain, drunActs, dExitAct, dEntryAct,
        device_level_publish_error_response, device_level_publish_status]
  · intro hr
    have hb : (DEVICE_LEVEL_I2C_ACTIVE_RETRIES ≤ me.retry_counter) = True := by
      simp [hr]
    rcases h with h | h <;>
      simp [device_dispatch, h, dancestors, device_dispatch_from, dHandler,
        device_level_try_retry, hb, dexitChain, dentryChain, drunActs,
        dExitAct, dEntryAct, device_level_publish_error_response,
        device_level_publish_status]

/-- Witness for the amended C5: the concrete in-flight read receiving a
matching I2C error reply and, with retries exhausted, the lockup
timeout. -/
theorem inflight_error_published_only_witness :
    device_dispatch device_busy_read_example
        (device_signal.I2C_COMM_ERROR_SIG 1 (hal_error_t.hal_code 66)) =
      ({device_busy_read_example with
          leaf := DHState.error,
          status := device_level_status_t.DEVICE_LEVEL_FATAL_ERROR,
          last_error := error_code_t.E_WHOOP_DEVICE_LEVEL_I2C_ERROR,
          last_hal_error := hal_error_t.hal_code 66,
          time_event_armed := false,
          busy_timer_armed := false},
       [device_output.publish_generic_error
          (error_code_t.hal (hal_error_t.hal_code 66))
          whoop_error_severity_t.E_S_WHOOP_ERROR,
        device_output.publish_status_report status_report_t.error_report]) ∧
    device_dispatch {device_busy_read_example with retry_counter := 10}
        device_signal.LOCAL_DEVICE_LEVEL_TIMEOUT_SIG =
      ({device_busy_read_example with
          retry_counter := 10,
          leaf := DHState.idle,
          status := device_level_status_t.DEVICE_LEVEL_ENABLED,
          i2c_transaction_id := 0,
          last_error := error_code_t.E_WHOOP_DEVICE_LEVEL_I2C_TIMEOUT,
          last_hal_error := hal_error_t.E_TIME_OUT,
          time_event_armed := false,
          busy_timer_armed := false},
       [device_output.publish_generic_error
          error_code_t.E_WHOOP_DEVICE_LEVEL_I2C_TIMEOUT
          whoop_error_severity_t.E_S_WHOOP_ERROR]) :=
  ⟨(inflight_error_published_only device_busy_read_example (hal_error_t.hal_code 66)
      (Or.inl rfl)).1,
   (inflight_error_published_only {device_busy_read_example with retry_counter := 10}
      (hal_error_t.hal_code 66) (Or.inl rfl)).2 (by decide)⟩

/-- C3: evaluation of the code at the failing input.  When the lockup
timer fires in the read state with retries remaining, the handler only
increments the retry counter and self-posts the local retry signal; when
that retry signal is then delivered, no state handles it, so it is
dropped by the backstop with no output at all — in particular no new I2C
request is dispatched.  Entry to idle does not reset the retry counter. -/
theorem retry_signal_dropped_and_counter_never_reset :
    device_dispatch device_busy_read_example
        device_signal.LOCAL_DEVICE_LEVEL_TIMEOUT_SIG =
      ({device_busy_read_example with retry_counter := 1},
       [device_output.self_post device_signal.LOCAL_DEVICE_LEVEL_RETRY_SIG]) ∧
    device_dispatch {device_busy_read_example with retry_counter := 1}
        device_signal.LOCAL_DEVICE_LEVEL_RETRY_SIG =
      ({device_busy_read_example with retry_counter := 1}, []) ∧
    ((dEntryAct DHState.idle
        {device_busy_read_example with retry_counter := 1}).1).retry_counter = 1 := by
  decide

/-- C4: evaluation of the code at the failing input.  A client request
event delivered while the API AO is in the busy state is dropped
unhandled: the state, the deferred event queue included, is unchanged
and no output is produced — neither a deferral nor a queue full error
response.  Likewise the device level response event from below has no
handler, so no deferred event is ever recalled and the AO does not
return to idle on it. -/
theorem busy_client_request_dropped_not_deferred :
    api_dispatch api_busy_example (api_signal.client_request_sig 7) =
      (api_busy_example, []) ∧
    api_dispatch api_busy_example
        (api_signal.DEVICE_LEVEL_RESPONSE_SIG device_level_req_type_t.DEVICE_LEVEL_READ
          { address := 16, p_data := 5, length := 2 }) =
      (api_busy_example, []) := by
  decide

/-- The event feed of the C1 counterexample run: enable the device AO
(delivering its self-posted enter idle actions), run a complete read
transaction, then start a second read.  Both reads dispatch an I2C
request with transaction id 1, because entry to idle resets the id. -/
def c1_events : List device_signal :=
  [ device_signal.DEVICE_LEVEL_ENABLE_SIG
  , device_signal.LOCAL_DEVICE_LEVEL_ACTION_ENTER_IDLE_SIG
  , device_signal.LOCAL_DEVICE_LEVEL_ACTION_ENTER_IDLE_SIG
  , device_signal.DEVICE_LEVEL_READ_SIG example_request
  , device_signal.LOCAL_DEVICE_LEVEL_I2C_TRANSACTION_START_RW_SIG
  , device_signal.I2C_COMM_COMPLETE_SIG 1
  , device_signal.DEVICE_LEVEL_READ_SIG example_request
  , device_signal.LOCAL_DEVICE_LEVEL_I2C_TRANSACTION_START_RW_SIG ]

/-- C1 counterexample: across two back-to-back read operations of one AO
instance the dispatched transaction ids are 1 and then 1 again — not
strictly increasing, and id 1 is reused for two different transactions. -/
theorem transaction_id_reuse_counterexample :
    device_dispatched_ids (device_run device_level_post_initial c1_events).2 =
      [1, 1] ∧
    strictlyIncreasingIds
      (device_dispatched_ids (device_run device_level_post_initial c1_events).2) =
      false := by
  decide

/-- A run that stays in the busy superstate starts in a read or write
leaf state. -/
theorem device_run_stays_busy_head (me : device_level_t) (es : List device_signal)
    (h : device_run_stays_busy me es = true) :
    me.leaf = DHState.read ∨ me.leaf = DHState.write := by
  cases es with
  | nil => simpa [device_run_stays_busy] using h
  | cons e es =>
    simp only [device_run_stays_busy, Bool.and_eq_true, Bool.or_eq_true,
      decide_eq_true_eq] at h
    exact h.1

/-- The dispatched ids of concatenated outputs split at the seam. -/
theorem device_dispatched_ids_append (a b : List device_output) :
    device_dispatched_ids (a ++ b) =
      device_dispatched_ids a ++ device_dispatched_ids b := by
  simp [device_dispatched_ids]

/-- Prepending a lower bound to a strictly increasing id list keeps it
strictly increasing. -/
theorem strictlyIncreasingIds_cons (a : Nat) (l : List Nat)
    (hl : strictlyIncreasingIds l = true) (ha : ∀ i ∈ l, a < i) :
    strictlyIncreasingIds (a :: l) = true := by
  cases l with
  | nil => rfl
  | cons b t =>
    have hab : a < b := ha b (by simp)
    simp [strictlyIncreasingIds, hab, hl]

/-- Publishing a status report never dispatches an I2C request. -/
theorem device_dispatched_ids_publish_status (me : device_level_t) :
    device_dispatched_ids (device_level_publish_status me) = [] := by
  simp only [device_level_publish_status]
  split_ifs <;> rfl

/-- One dispatch step of the device AO that starts and ends inside the
busy superstate either emits no I2C request and keeps the transaction id,
or emits exactly one I2C request carrying the incremented transaction id
which also becomes the new current id. -/
theorem device_busy_step_ids (me : device_level_t) (e : device_signal)
    (h1 : me.leaf = DHState.read ∨ me.leaf = DHState.write)
    (h2 : ((device_dispatch me e).1).leaf = DHState.read ∨
          ((device_dispatch me e).1).leaf = DHState.write) :
    (device_dispatched_ids (device_dispatch me e).2 = [] ∧
       ((device_dispatch me e).1).i2c_transaction_id = me.i2c_transaction_id) ∨
    (device_dispatched_ids (device_dispatch me e).2 = [me.i2c_transaction_id + 1] ∧
       ((device_dispatch me e).1).i2c_transaction_id = me.i2c_transaction_id + 1) := by
  rcases h1 with h | h <;> cases e <;>
    first
      | (left;
         simp [device_dispatch, h, dancestors, device_dispatch_from, dHandler,
           device_dispatched_ids, device_level_publish_error_response,
           device_dispatched_ids_publish_status]
         done)
      | (right;
         simp [device_dispatch, h, dancestors, device_dispatch_from, dHandler,
           device_dispatched_ids, device_level_i2c_read, device_level_i2c_write,
           device_level_i2c_comm_req]
         done)
      | (simp [device_dispatch, h, dancestors, device_dispatch_from, dHandler,
           dexitChain, dentryChain, drunActs, dExitAct, dEntryAct,
           device_level_publish_status] at h2
         done)
      | skip
  case inl.DEVICE_LEVEL_REQ_STAT_SIG =>
    left
    simp [device_dispatch, h, dancestors, device_dispatch_from, dHandler,
      device_dispatched_ids_publish_status]
  case inl.I2C_BUS_STATUS_SIG b =>
    by_cases hb : device_level_is_i2c_bus_enabled b = true
    · left
      simp [device_dispatch, h, dancestors, device_dispatch_from, dHandler, hb,
        device_dispatched_ids]
    · simp [device_dispatch, h, dancestors, device_dispatch_from, dHandler, hb,
        dexitChain, dentryChain, drunActs, dExitAct, dEntryAct,
        device_level_publish_status] at h2
  case inl.I2C_COMM_COMPLETE_SIG rid =>
    by_cases hrid : rid = me.i2c_transaction_id
    · simp [device_dispatch, h, dancestors, device_dispatch_from, dHandler, hrid,
        dexitChain, dentryChain, drunActs, dExitAct, dEntryAct] at h2
    · left
      simp [device_dispatch, h, dancestors, device_dispatch_from, dHandler, hrid,
        device_dispatched_ids, device_level_publish_error_response]
  case inl.I2C_COMM_ERROR_SIG rid ec =>
    by_cases hrid : rid = me.i2c_transaction_id
    · simp [device_dispatch, h, dancestors, device_dispatch_from, dHandler, hrid,
        dexitChain, dentryChain, drunActs, dExitAct, dEntryAct,
        device_level_publish_error_response, device_level_publish_status] at h2
    · left
      simp [device_dispatch, h, dancestors, device_dispatch_from, dHandler, hrid,
        device_dispatched_ids, device_level_publish_error_response]
  case inl.LOCAL_DEVICE_LEVEL_TIMEOUT_SIG =>
    by_cases hrc : DEVICE_LEVEL_I2C_ACTIVE_RETRIES ≤ me.retry_counter
    · simp [device_dispatch, h, dancestors, device_dispatch_from, dHandler,
        device_level_try_retry, hrc, dexitChain, dentryChain, drunActs,
        dExitAct, dEntryAct, device_level_publish_error_response] at h2
    · left
      simp [device_dispatch, h, dancestors, device_dispatch_from, dHandler,
        device_level_try_retry, hrc, device_dispatched_ids]
  case inl.LOCAL_DEVICE_LEVEL_BUSY_TIMEOUT_SIG =>
    by_cases hrc : DEVICE_LEVEL_I2C_ACTIVE_RETRIES ≤ me.retry_counter
    · simp [device_dispatch, h, dancestors, device_dispatch_from, dHandler,
        device_level_try_retry, hrc, dexitChain, dentryChain, drunActs,
        dExitAct, dEntryAct, device_level_publish_error_response] at h2
    · left
      simp [device_dispatch, h, dancestors, device_dispatch_from, dHandler,
        device_level_try_retry, hrc, device_dispatched_ids]
  case inr.DEVICE_LEVEL_REQ_STAT_SIG =>
    left
    simp [device_dispatch, h, dancestors, device_dispatch_from, dHandler,
      device_dispatched_ids_publish_status]
  case inr.I2C_BUS_STATUS_SIG b =>
    by_cases hb : device_level_is_i2c_bus_enabled b = true
    · left
      simp [device_dispatch, h, dancestors, device_dispatch_from, dHandler, hb,
        device_dispatched_ids]
    · simp [device_dispatch, h, dancestors, device_dispatch_from, dHandler, hb,
        dexitChain, dentryChain, drunActs, dExitAct, dEntryAct,
        device_level_publish_status] at h2
  case inr.I2C_COMM_COMPLETE_SIG rid =>
    by_cases hrid : rid = me.i2c_transaction_id
    · simp [device_dispatch, h, dancestors, device_dispatch_from, dHandler, hrid,
        dexitChain, dentryChain, drunActs, dExitAct, dEntryAct] at h2
    · left
      simp [device_dispatch, h, dancestors, device_dispatch_from, dHandler, hrid,
        device_dispatched_ids, device_level_publish_error_response]
  case inr.I2C_COMM_ERROR_SIG rid ec =>
    by_cases hrid : rid = me.i2c_transaction_id
    · simp [device_dispatch, h, dancestors, device_dispatch_from, dHandler, hrid,
        dexitChain, dentryChain, drunActs, dExitAct, dEntryAct,
        device_level_publish_error_response, device_level_publish_status] at h2
    · left
      simp [device_dispatch, h, dancestors, device_dispatch_from, dHandler, hrid,
        device_dispatched_ids, device_level_publish_error_response]
  case inr.LOCAL_DEVICE_LEVEL_TIMEOUT_SIG =>
    by_cases hrc : DEVICE_LEVEL_I2C_ACTIVE_RETRIES ≤ me.retry_counter
    · simp [device_dispatch, h, dancestors, device_dispatch_from, dHandler,
        device_level_try_retry, hrc, dexitChain, dentryChain, drunActs,
        dExitAct, dEntryAct, device_level_publish_error_response] at h2
    · left
      simp [device_dispatch, h, dancestors, device_dispatch_from, dHandler,
        device_level_try_retry, hrc, device_dispatched_ids]
  case inr.LOCAL_DEVICE_LEVEL_BUSY_TIMEOUT_SIG =>
    by_cases hrc : DEVICE_LEVEL_I2C_ACTIVE_RETRIES ≤ me.retry_counter
    · simp [device_dispatch, h, dancestors, device_dispatch_from, dHandler,
        device_level_try_retry, hrc, dexitChain, dentryChain, drunActs,
        dExitAct, dEntryAct, device_level_publish_error_response] at h2
    · left
      simp [device_dispatch, h, dancestors, device_dispatch_from, dHandler,
        device_level_try_retry, hrc, device_dispatched_ids]

/-- Over any run of the device AO that stays inside the busy superstate,
the dispatched transaction ids form a strictly increasing list; moreover
the current transaction id never decreases and bounds every id emitted. -/
theorem device_busy_run_ids (es : List device_signal) :
    ∀ me : device_level_t, device_run_stays_busy me es = true →
    strictlyIncreasingIds (device_dispatched_ids (device_run me es).2) = true ∧
    me.i2c_transaction_id ≤ ((device_run me es).1).i2c_transaction_id ∧
    ∀ i ∈ device_dispatched_ids (device_run me es).2,
      me.i2c_transaction_id < i ∧ i ≤ ((device_run me es).1).i2c_transaction_id := by
  induction es with
  | nil =>
    intro me _
    refine ⟨rfl, Nat.le_refl _, ?_⟩
    intro i hi
    simp [device_run, device_dispatched_ids] at hi
  | cons e es ih =>
    intro me h
    simp only [device_run_stays_busy, Bool.and_eq_true, Bool.or_eq_true,
      decide_eq_true_eq] at h
    obtain ⟨h1, hrest⟩ := h
    have hpost := device_run_stays_busy_head _ _ hrest
    have step := device_busy_step_ids me e h1 hpost
    obtain ⟨ih1, ih2, ih3⟩ := ih (device_dispatch me e).1 hrest
    simp only [device_run, device_dispatched_ids_append]
    rcases step with ⟨hids, hid⟩ | ⟨hids, hid⟩
    · rw [hids]
      simp only [List.nil_append]
      refine ⟨ih1, ?_, ?_⟩
      · rw [← hid] at *; exact ih2
      · intro i hi
        have := ih3 i hi
        omega
    · rw [hids]
      simp only [List.cons_append, List.nil_append]
      have hbound : ∀ i ∈ device_dispatched_ids
          (device_run (device_dispatch me e).1 es).2,
          me.i2c_transaction_id + 1 < i := by
        intro i hi
        have := ih3 i hi
        omega
      refine ⟨strictlyIncreasingIds_cons _ _ ih1 hbound, by omega, ?_⟩
      intro i hi
      rcases List.mem_cons.mp hi with hcase | hcase
      · subst hcase
        constructor
        · omega
        · omega
      · have := ih3 i hcase
        omega

/-- C1 amended: within a single busy episode of one device AO instance
(a run during which the AO stays in the read or write state), the
transaction ids of the dispatched I2C requests are strictly increasing
and never reused; the id counter is reset to zero on every entry to
idle, so ids restart at one for the next operation. -/
theorem transaction_ids_increase_within_busy_episode (me : device_level_t)
    (es : List device_signal) (h : device_run_stays_busy me es = true) :
    strictlyIncreasingIds (device_dispatched_ids (device_run me es).2) = true :=
  (device_busy_run_ids es me h).1

/-- Witness for the amended C1: a retried read operation that stays in
flight; the two I2C requests it dispatches carry ids 2 and 3, strictly
increasing. -/
theorem transaction_ids_increase_within_busy_episode_witness :
    device_run_stays_busy device_busy_read_example
      [ device_signal.LOCAL_DEVICE_LEVEL_I2C_TRANSACTION_START_RW_SIG
      , device_signal.LOCAL_DEVICE_LEVEL_TIMEOUT_SIG
      , device_signal.LOCAL_DEVICE_LEVEL_I2C_TRANSACTION_START_RW_SIG ] = true ∧
    strictlyIncreasingIds (device_dispatched_ids
      (device_run device_busy_read_example
        [ device_signal.LOCAL_DEVICE_LEVEL_I2C_TRANSACTION_START_RW_SIG
        , device_signal.LOCAL_DEVICE_LEVEL_TIMEOUT_SIG
        , device_signal.LOCAL_DEVICE_LEVEL_I2C_TRANSACTION_START_RW_SIG ]).2) = true :=
  ⟨by decide,
   transaction_ids_increase_within_busy_episode device_busy_read_example
     [ device_signal.LOCAL_DEVICE_LEVEL_I2C_TRANSACTION_START_RW_SIG
     , device_signal.LOCAL_DEVICE_LEVEL_TIMEOUT_SIG
     , device_signal.LOCAL_DEVICE_LEVEL_I2C_TRANSACTION_START_RW_SIG ] (by decide)⟩

end I2CTemplates
